import Mathlib

/-!
Shallow embedding of the counting engine of `vrc-counter` (src/main.rs),
centred on `Counter::counter_stream`: the rollover check, the OSC message
dispatch (boolean-trigger classification and avatar-change resync), the
per-rule persistence/increment logic, and the decimal mapper
`int_to_decimal`.

Persistence outcomes and regex matching are external to the loop body and
are modelled as oracles: an insert-outcome function `ins : Nat → Bool`
(outcome of the insert attempted for the rule at a given position in the
configured rule list) and a match predicate `String → Bool` carried by
each rule (standing for `regex.find(addr).is_some()`).

Outbound OSC floats are modelled by the exact `Decimal` value (a rational)
computed by `int_to_decimal` before the `to_f32` conversion at the
protocol boundary; `rust_decimal` arithmetic is exact at these magnitudes.
-/

namespace VrcCounter

/-- `MASK_COUNTER_PARAM` constant (main.rs:24). -/
def MASK_COUNTER_PARAM : String := "/avatar/parameters/mask_counter"

/-- `MASK_ITERATION_PARAM` constant (main.rs:25). -/
def MASK_ITERATION_PARAM : String := "/avatar/parameters/mask_iteration"

/-- Two's-complement reinterpretation performed by the Rust cast
`num as i64` on a 64-bit `usize` (main.rs:58). -/
def i64wrap (n : Nat) : Int := (((n + 2 ^ 63) % 2 ^ 64 : Nat) : Int) - 2 ^ 63

/-- `int_to_decimal` (main.rs:57-60):
`Decimal::new(num as i64, 0) * dec!(0.01)` then `dec!(-1.0) + output`,
computed in exact decimal arithmetic, here over ℚ. -/
def int_to_decimal (num : Nat) : ℚ := -1 + (i64wrap num : ℚ) * (1 / 100)

/-- `vrcc_core::Mask`: the four classification-rule kinds, each carrying
its compiled address pattern, modelled as a match predicate. -/
inductive Mask where
  | UpPosed : (String → Bool) → Mask
  | DownPosed : (String → Bool) → Mask
  | UpGrabbed : (String → Bool) → Mask
  | DownGrabbed : (String → Bool) → Mask

/-- Modelled from the spec: `Mask::discriminant` lives in the external
`vrcc_core` crate, not under src/. The spec says it is "an ordinal
integer, stable across the four variants", used as the persisted storage
key; we take the ordinal in declaration order. -/
def Mask.discriminant : Mask → Nat
  | .UpPosed _ => 0
  | .DownPosed _ => 1
  | .UpGrabbed _ => 2
  | .DownGrabbed _ => 3

/-- Decoded OSC argument (`rosc::OscType`), restricted to the shapes the
engine inspects: booleans are matched on, everything else is opaque. -/
inductive OscArg where
  | bool : Bool → OscArg
  | float : ℚ → OscArg
  | other : OscArg
deriving DecidableEq

/-- Decoded OSC message (`rosc::OscMessage`). -/
structure OscMessage where
  addr : String
  args : List OscArg
deriving DecidableEq

/-- Decoded OSC packet (`rosc::OscPacket`): a single message, or a bundle
(bundles are only logged by the loop, their contents never inspected). -/
inductive OscPacket where
  | message : OscMessage → OscPacket
  | bundle : OscPacket
deriving DecidableEq

/-- The engine's in-memory counter state: the local mutables `data_len`
and `iteration_amount` of `counter_stream` (main.rs:211-229). -/
structure EngineState where
  data_len : Nat
  iteration_amount : Nat
deriving DecidableEq

/-- Observable effects of one engine step, in program order:
a persistence insert attempt with the persisted discriminant
(`db.mask_counter().create(param.discriminant() as i32, ..)`), an outbound
OSC send attempt (address and exact decimal payload), a published
`Event::CounterUpdated` notification (`tx.send`), or an `error!` log. -/
inductive Effect where
  | dbInsert : Nat → Effect
  | send : String → ℚ → Effect
  | notify : Effect
  | logError : Effect
deriving DecidableEq

/-- One arm of the `for param in &avatar_params` match (main.rs:266-404):
test the rule's pattern against the message address and, on a match,
attempt the insert; `insertOk` is the outcome of that attempt.
Pose rules publish a notification on success and mutate nothing;
grab rules additionally increment `data_len` and send the new value
(via `int_to_decimal`) to `MASK_COUNTER_PARAM`. On insert failure the
error is logged and nothing else happens. -/
def processRule (insertOk : Bool) (rule : Mask) (addr : String)
    (s : EngineState) : EngineState × List Effect :=
  match rule with
  | .UpPosed p =>
    if p addr then
      if insertOk then (s, [.dbInsert 0, .notify])
      else (s, [.dbInsert 0, .logError])
    else (s, [])
  | .DownPosed p =>
    if p addr then
      if insertOk then (s, [.dbInsert 1, .notify])
      else (s, [.dbInsert 1, .logError])
    else (s, [])
  | .UpGrabbed p =>
    if p addr then
      if insertOk then
        let d := s.data_len + 1
        ({ s with data_len := d },
          [.dbInsert 2, .send MASK_COUNTER_PARAM (int_to_decimal d), .notify])
      else (s, [.dbInsert 2, .logError])
    else (s, [])
  | .DownGrabbed p =>
    if p addr then
      if insertOk then
        let d := s.data_len + 1
        ({ s with data_len := d },
          [.dbInsert 3, .send MASK_COUNTER_PARAM (int_to_decimal d), .notify])
      else (s, [.dbInsert 3, .logError])
    else (s, [])

/-- The `for param in &avatar_params` loop (main.rs:265-405): every
configured rule is processed in order against the same address, state
threading through; `i` indexes the current rule so the oracle `ins`
can assign each attempted insert its own outcome. -/
def processRules (ins : Nat → Bool) (params : List Mask) (addr : String)
    (s : EngineState) (i : Nat) : EngineState × List Effect :=
  match params with
  | [] => (s, [])
  | rule :: rest =>
    let r1 := processRule (ins i) rule addr s
    let r2 := processRules ins rest addr r1.1 (i + 1)
    (r2.1, r1.2 ++ r2.2)

/-- The let-chain guard (main.rs:260-263): the classification branch runs
iff the message's first argument exists, is a boolean, and is `true`. -/
def firstArgIsTrue (args : List OscArg) : Bool :=
  match args with
  | OscArg.bool b :: _ => b
  | _ => false

/-- The avatar-change resync branch body (main.rs:409-437): send the
current `data_len` to the counter address and the current
`iteration_amount` to the iteration address, both via `int_to_decimal`. -/
def avatarChangeEffects (s : EngineState) : List Effect :=
  [.send MASK_COUNTER_PARAM (int_to_decimal s.data_len),
   .send MASK_ITERATION_PARAM (int_to_decimal s.iteration_amount)]

/-- Dispatch of one decoded `OscPacket::Message` (main.rs:257-438):
first-argument-is-boolean-true routes to rule classification; otherwise
the fixed address `/avatar/change` routes to resync; anything else is
only logged. -/
def handleMessage (ins : Nat → Bool) (params : List Mask) (msg : OscMessage)
    (s : EngineState) : EngineState × List Effect :=
  if firstArgIsTrue msg.args then processRules ins params msg.addr s 0
  else if msg.addr = "/avatar/change" then (s, avatarChangeEffects s)
  else (s, [])

/-- Dispatch of a decoded packet (main.rs:256-443): bundles are only
logged (`debug!`), never classified. -/
def handlePacket (ins : Nat → Bool) (params : List Mask) (pkt : OscPacket)
    (s : EngineState) : EngineState × List Effect :=
  match pkt with
  | .message msg => handleMessage ins params msg s
  | .bundle => (s, [])

/-- The cycle rollover check at the top of every loop iteration
(main.rs:233-251): if `data_len >= 200`, perform
`iteration_amount += data_len / 200; data_len %= 200;` and send the
updated `iteration_amount` (via `int_to_decimal`) to the iteration
address. -/
def rolloverCheck (s : EngineState) : EngineState × List Effect :=
  if 200 ≤ s.data_len then
    let s' : EngineState :=
      ⟨s.data_len % 200, s.iteration_amount + s.data_len / 200⟩
    (s', [.send MASK_ITERATION_PARAM (int_to_decimal s'.iteration_amount)])
  else (s, [])

/-- Outcome of one `socket.recv_from` (main.rs:252): a received datagram
whose payload either decodes to a packet (`some`) or fails OSC decoding
(`none`), or a receive error. -/
inductive RecvOutcome where
  | ok : Option OscPacket → RecvOutcome
  | recvErr : RecvOutcome

/-- Result of one loop iteration: the next state with its effect trace,
or a panic of the stream task. -/
inductive StepResult where
  | next : EngineState → List Effect → StepResult
  | panicked : StepResult
deriving DecidableEq

/-- One iteration of the `loop` (main.rs:232-449): rollover check, then
receive. A receive error is logged (`error!`, main.rs:446) and the loop
continues; a datagram whose payload fails OSC decoding hits
`rosc::decoder::decode_udp(&buf[..size]).unwrap()` (main.rs:255), which
panics; a decoded packet is dispatched. -/
def loopStep (ins : Nat → Bool) (params : List Mask) (r : RecvOutcome)
    (s : EngineState) : StepResult :=
  let ro := rolloverCheck s
  match r with
  | .recvErr => .next ro.1 (ro.2 ++ [.logError])
  | .ok none => .panicked
  | .ok (some pkt) =>
    let hp := handlePacket ins params pkt ro.1
    .next hp.1 (ro.2 ++ hp.2)

/-- Startup seeding (main.rs:211-229): `data_len` is the count of all
persisted records returned by the `find_many` query; `iteration_amount`
starts at 0. -/
def initialState (recordCount : Nat) : EngineState := ⟨recordCount, 0⟩

/-- Number of outbound send attempts to a given address in a trace. -/
def countSends (addr : String) (es : List Effect) : Nat :=
  (es.filter fun e =>
    match e with
    | .send a _ => a = addr
    | _ => false).length

/-- The payload values of the sends to a given address, in order. -/
def sendsTo (addr : String) (es : List Effect) : List ℚ :=
  es.filterMap fun e =>
    match e with
    | .send a v => if a = addr then some v else none
    | _ => none

/-- Number of `Event::CounterUpdated` notifications in a trace. -/
def countNotify (es : List Effect) : Nat :=
  (es.filter fun e =>
    match e with
    | .notify => true
    | _ => false).length

/-- Number of persistence insert attempts in a trace. -/
def countInserts (es : List Effect) : Nat :=
  (es.filter fun e =>
    match e with
    | .dbInsert _ => true
    | _ => false).length

/-- The cumulative total encoded by the counter pair. -/
def total (s : EngineState) : Nat := s.iteration_amount * 200 + s.data_len

/-! ## Helper lemmas -/

/-- For inputs below `2^63` the `usize as i64` cast is the identity. -/
theorem i64wrap_of_lt {n : Nat} (h : n < 2 ^ 63) : i64wrap n = n := by
  unfold i64wrap
  rw [Nat.mod_eq_of_lt (by omega)]
  push_cast
  omega

/-! ## Claims -/

/--
C2 (code_bug evidence): a received datagram whose payload fails OSC
decoding makes the loop iteration panic — `decode_udp(..).unwrap()` at
main.rs:255 — instead of logging and dropping the datagram as the spec
requires.
-/
theorem malformed_payload_panics (ins : Nat → Bool) (params : List Mask)
    (s : EngineState) :
    loopStep ins params (RecvOutcome.ok none) s = StepResult.panicked := rfl

/--
C3: before processing each inbound datagram, if `data_len ≥ 200` the
rollover check sets `iteration_amount := iteration_amount + data_len / 200`
and `data_len := data_len % 200`, then sends `int_to_decimal` of the
updated `iteration_amount` to the iteration address; in particular
`data_len = 205` yields `data_len = 5` and `iteration_amount + 1`, and a
received packet is dispatched against the rollover-checked state.
-/
theorem rollover_spec (s : EngineState) (h : 200 ≤ s.data_len) :
    (rolloverCheck s).1.iteration_amount =
      s.iteration_amount + s.data_len / 200 ∧
    (rolloverCheck s).1.data_len = s.data_len % 200 ∧
    (rolloverCheck s).2 =
      [Effect.send MASK_ITERATION_PARAM
        (int_to_decimal (s.iteration_amount + s.data_len / 200))] ∧
    (∀ i, (rolloverCheck ⟨205, i⟩).1 = ⟨5, i + 1⟩) ∧
    (∀ ins params pkt s0,
      loopStep ins params (RecvOutcome.ok (some pkt)) s0 =
        StepResult.next (handlePacket ins params pkt (rolloverCheck s0).1).1
          ((rolloverCheck s0).2 ++
            (handlePacket ins params pkt (rolloverCheck s0).1).2)) := by
  refine ⟨?_, ?_, ?_, ?_, ?_⟩
  · simp [rolloverCheck, h]
  · simp [rolloverCheck, h]
  · simp [rolloverCheck, h]
  · intro i
    simp [rolloverCheck]
  · intro ins params pkt s0
    rfl

/-- Witness for C3 at `data_len = 205`, `iteration_amount = 3`. -/
theorem rollover_spec_witness : (rolloverCheck ⟨205, 3⟩).1 = ⟨5, 4⟩ :=
  (rollover_spec ⟨205, 3⟩ (by norm_num)).2.2.2.1 3

/--
C6 counterexample: a successfully persisted grab event at
`data_len = 199` is an engine update of `CounterState` after which
`data_len = 200`, so `data_len < 200` does not hold after every update.
-/
theorem data_len_bound_cex :
    ¬ ((handleMessage (fun _ => true) [Mask.UpGrabbed (fun _ => true)]
        ⟨"/m", [OscArg.bool true]⟩ ⟨199, 0⟩).1.data_len < 200) := by
  decide

/--
C6 amended: after the rollover check, `data_len < 200` always holds; a
grab increment (or startup seeding) may leave `data_len` at 200 or more
until the next iteration's rollover check — which runs before the next
datagram is processed — restores `data_len < 200`.
-/
theorem data_len_bound_amended (s : EngineState) :
    (rolloverCheck s).1.data_len < 200 := by
  unfold rolloverCheck
  split
  · exact Nat.mod_lt _ (by norm_num)
  · show s.data_len < 200
    omega

/--
C5 counterexample: the claim's "for n > 200 it imposes no upper bound,
returning the same formula's value above +1.0" fails at `n = 2^63`:
the `usize as i64` cast in `int_to_decimal` wraps, giving a value below 1.
-/
theorem decimal_mapper_cex :
    200 < 2 ^ 63 ∧ int_to_decimal (2 ^ 63) < 1 := by
  constructor
  · norm_num
  · unfold int_to_decimal i64wrap
    norm_num

/--
C5 amended: for every `n ≤ 200`, `int_to_decimal n = -1 + n * 0.01`
exactly, in exact decimal arithmetic (so `int_to_decimal 0 = -1` and
`int_to_decimal 200 = 1`); for `200 < n` the function imposes no upper
bound as long as `n < 2^63`, returning values above +1.0, while for
`n ≥ 2^63` the `usize as i64` cast wraps and the formula no longer holds.
-/
theorem decimal_mapper_amended (n : Nat) :
    (n ≤ 200 → int_to_decimal n = -1 + (n : ℚ) * (1 / 100)) ∧
    int_to_decimal 0 = -1 ∧
    int_to_decimal 200 = 1 ∧
    (200 < n → n < 2 ^ 63 → 1 < int_to_decimal n) := by
  refine ⟨?_, ?_, ?_, ?_⟩
  · intro h
    unfold int_to_decimal
    rw [i64wrap_of_lt (by omega)]
    push_cast
    ring
  · unfold int_to_decimal
    rw [i64wrap_of_lt (by norm_num)]
    norm_num
  · unfold int_to_decimal
    rw [i64wrap_of_lt (by norm_num)]
    norm_num
  · intro h200 h63
    unfold int_to_decimal
    rw [i64wrap_of_lt h63]
    have : (200 : ℚ) < (n : ℚ) := by exact_mod_cast h200
    push_cast
    linarith

/-- Witness for C5's amended claim at `n = 200` and `n = 300`. -/
theorem decimal_mapper_amended_witness :
    int_to_decimal 200 = -1 + (200 : ℚ) * (1 / 100) ∧
    1 < int_to_decimal 300 :=
  ⟨(decimal_mapper_amended 200).1 (by norm_num),
   (decimal_mapper_amended 300).2.2.2 (by norm_num) (by norm_num)⟩

/--
C1: a decoded message whose first argument is boolean `true` and whose
address matches a configured `UpGrabbed` (or `DownGrabbed`) rule's
pattern, with a successful persistence insert, increments `data_len` by
exactly 1, leaves `iteration_amount` unchanged, sends exactly one
outbound counter message to the counter address carrying
`int_to_decimal` of the new `data_len`, and publishes exactly one
"counter changed" notification.
-/
theorem grab_success_spec (p : String → Bool) (msg : OscMessage)
    (s : EngineState) (ins : Nat → Bool) (rule : Mask)
    (hArg : firstArgIsTrue msg.args = true) (hMatch : p msg.addr = true)
    (hIns : ins 0 = true)
    (hRule : rule = Mask.UpGrabbed p ∨ rule = Mask.DownGrabbed p) :
    (handleMessage ins [rule] msg s).1.data_len = s.data_len + 1 ∧
    (handleMessage ins [rule] msg s).1.iteration_amount =
      s.iteration_amount ∧
    countSends MASK_COUNTER_PARAM (handleMessage ins [rule] msg s).2 = 1 ∧
    sendsTo MASK_COUNTER_PARAM (handleMessage ins [rule] msg s).2 =
      [int_to_decimal (s.data_len + 1)] ∧
    countNotify (handleMessage ins [rule] msg s).2 = 1 := by
  rcases hRule with h | h <;> subst h <;>
    simp [handleMessage, hArg, processRules, processRule, hMatch, hIns,
      countSends, sendsTo, countNotify]

/-- Witness for C1: one matching `UpGrabbed` rule at `data_len = 3`. -/
theorem grab_success_spec_witness :
    (handleMessage (fun _ => true) [Mask.UpGrabbed (fun _ => true)]
      ⟨"/m", [OscArg.bool true]⟩ ⟨3, 7⟩).1.data_len = 3 + 1 ∧
    (handleMessage (fun _ => true) [Mask.UpGrabbed (fun _ => true)]
      ⟨"/m", [OscArg.bool true]⟩ ⟨3, 7⟩).1.iteration_amount = 7 ∧
    countSends MASK_COUNTER_PARAM
      (handleMessage (fun _ => true) [Mask.UpGrabbed (fun _ => true)]
        ⟨"/m", [OscArg.bool true]⟩ ⟨3, 7⟩).2 = 1 ∧
    sendsTo MASK_COUNTER_PARAM
      (handleMessage (fun _ => true) [Mask.UpGrabbed (fun _ => true)]
        ⟨"/m", [OscArg.bool true]⟩ ⟨3, 7⟩).2 = [int_to_decimal (3 + 1)] ∧
    countNotify
      (handleMessage (fun _ => true) [Mask.UpGrabbed (fun _ => true)]
        ⟨"/m", [OscArg.bool true]⟩ ⟨3, 7⟩).2 = 1 :=
  grab_success_spec (fun _ => true) ⟨"/m", [OscArg.bool true]⟩ ⟨3, 7⟩
    (fun _ => true) (Mask.UpGrabbed (fun _ => true)) rfl rfl rfl (Or.inl rfl)

/--
C4: a boolean-`true` message matching a grab rule whose persistence
insert fails leaves the state exactly as before (no change to `data_len`
or `iteration_amount`), and its whole effect trace is the insert attempt
followed by the error log: no outbound send, no notification.
-/
theorem grab_failure_spec (p : String → Bool) (msg : OscMessage)
    (s : EngineState) (ins : Nat → Bool) (rule : Mask)
    (hArg : firstArgIsTrue msg.args = true) (hMatch : p msg.addr = true)
    (hIns : ins 0 = false)
    (hRule : rule = Mask.UpGrabbed p ∨ rule = Mask.DownGrabbed p) :
    (handleMessage ins [rule] msg s).1 = s ∧
    (handleMessage ins [rule] msg s).2 =
      [Effect.dbInsert rule.discriminant, Effect.logError] ∧
    countSends MASK_COUNTER_PARAM (handleMessage ins [rule] msg s).2 = 0 ∧
    countNotify (handleMessage ins [rule] msg s).2 = 0 := by
  rcases hRule with h | h <;> subst h <;>
    simp [handleMessage, hArg, processRules, processRule, hMatch, hIns,
      countSends, countNotify, Mask.discriminant]

/-- Witness for C4: failing insert on a matching `DownGrabbed` rule. -/
theorem grab_failure_spec_witness :
    (handleMessage (fun _ => false) [Mask.DownGrabbed (fun _ => true)]
      ⟨"/m", [OscArg.bool true]⟩ ⟨3, 7⟩).1 = ⟨3, 7⟩ ∧
    (handleMessage (fun _ => false) [Mask.DownGrabbed (fun _ => true)]
      ⟨"/m", [OscArg.bool true]⟩ ⟨3, 7⟩).2 =
      [Effect.dbInsert (Mask.DownGrabbed (fun _ => true)).discriminant,
        Effect.logError] ∧
    countSends MASK_COUNTER_PARAM
      (handleMessage (fun _ => false) [Mask.DownGrabbed (fun _ => true)]
        ⟨"/m", [OscArg.bool true]⟩ ⟨3, 7⟩).2 = 0 ∧
    countNotify
      (handleMessage (fun _ => false) [Mask.DownGrabbed (fun _ => true)]
        ⟨"/m", [OscArg.bool true]⟩ ⟨3, 7⟩).2 = 0 :=
  grab_failure_spec (fun _ => true) ⟨"/m", [OscArg.bool true]⟩ ⟨3, 7⟩
    (fun _ => false) (Mask.DownGrabbed (fun _ => true)) rfl rfl rfl
    (Or.inr rfl)

/--
C7: an avatar-change message (address `/avatar/change`, first argument
absent or not boolean `true`) sends the current `data_len` to the counter
address and the current `iteration_amount` to the iteration address (both
via `int_to_decimal`), mutates no state and attempts no persistence
insert; handling it twice in a row therefore produces two identical
outbound pairs and zero state mutation.
-/
theorem avatar_change_spec (ins : Nat → Bool) (params : List Mask)
    (msg : OscMessage) (s : EngineState)
    (hArg : firstArgIsTrue msg.args = false)
    (hAddr : msg.addr = "/avatar/change") :
    handleMessage ins params msg s =
      (s, [Effect.send MASK_COUNTER_PARAM (int_to_decimal s.data_len),
           Effect.send MASK_ITERATION_PARAM
             (int_to_decimal s.iteration_amount)]) ∧
    countInserts (handleMessage ins params msg s).2 = 0 ∧
    handleMessage ins params msg (handleMessage ins params msg s).1 =
      handleMessage ins params msg s := by
  have h1 : handleMessage ins params msg s = (s, avatarChangeEffects s) := by
    simp [handleMessage, hArg, hAddr]
  refine ⟨?_, ?_, ?_⟩
  · rw [h1]
    rfl
  · rw [h1]
    simp [avatarChangeEffects, countInserts]
  · rw [h1]
    exact h1

/-- Witness for C7: two avatar-change messages in a row at `⟨42, 5⟩`. -/
theorem avatar_change_spec_witness :
    handleMessage (fun _ => true) [] ⟨"/avatar/change", []⟩ ⟨42, 5⟩ =
      (⟨42, 5⟩,
        [Effect.send MASK_COUNTER_PARAM (int_to_decimal 42),
         Effect.send MASK_ITERATION_PARAM (int_to_decimal 5)]) ∧
    countInserts
      (handleMessage (fun _ => true) [] ⟨"/avatar/change", []⟩ ⟨42, 5⟩).2
      = 0 ∧
    handleMessage (fun _ => true) [] ⟨"/avatar/change", []⟩
      (handleMessage (fun _ => true) [] ⟨"/avatar/change", []⟩ ⟨42, 5⟩).1 =
      handleMessage (fun _ => true) [] ⟨"/avatar/change", []⟩ ⟨42, 5⟩ :=
  avatar_change_spec (fun _ => true) [] ⟨"/avatar/change", []⟩ ⟨42, 5⟩
    rfl rfl

/-- Processing a concatenated rule list decomposes into processing the
first part and then the second from the resulting state: the rule loop
never stops at the first match. -/
theorem processRules_append (ins : Nat → Bool) (xs ys : List Mask)
    (addr : String) (s : EngineState) (i : Nat) :
    processRules ins (xs ++ ys) addr s i =
      ((processRules ins ys addr (processRules ins xs addr s i).1
          (i + xs.length)).1,
        (processRules ins xs addr s i).2 ++
          (processRules ins ys addr (processRules ins xs addr s i).1
            (i + xs.length)).2) := by
  induction xs generalizing s i with
  | nil => simp [processRules]
  | cons a rest ih =>
    simp only [List.cons_append, processRules, List.append_eq, ih,
      List.length_cons, List.append_assoc]
    have h : i + (rest.length + 1) = i + 1 + rest.length := by omega
    rw [h]

/--
C8: for a boolean-`true` message the engine evaluates every configured
rule in order against the address and applies every matching one, not
only the first: processing any rule list `params₁ ++ params₂` processes
`params₁` and then `params₂` from the intermediate state; in particular
an address matching both an `UpGrabbed` and a `DownGrabbed` rule (both
inserts succeeding) causes two persistence inserts, two increments of
`data_len`, two counter sends and two notifications.
-/
theorem all_rules_applied (p q : String → Bool) (msg : OscMessage)
    (s : EngineState) (ins : Nat → Bool)
    (hArg : firstArgIsTrue msg.args = true)
    (hp : p msg.addr = true) (hq : q msg.addr = true)
    (h0 : ins 0 = true) (h1 : ins 1 = true) :
    (∀ (params₁ params₂ : List Mask) (s0 : EngineState) (i : Nat),
      processRules ins (params₁ ++ params₂) msg.addr s0 i =
        ((processRules ins params₂ msg.addr
            (processRules ins params₁ msg.addr s0 i).1
            (i + params₁.length)).1,
          (processRules ins params₁ msg.addr s0 i).2 ++
            (processRules ins params₂ msg.addr
              (processRules ins params₁ msg.addr s0 i).1
              (i + params₁.length)).2)) ∧
    (handleMessage ins [Mask.UpGrabbed p, Mask.DownGrabbed q] msg
        s).1.data_len = s.data_len + 2 ∧
    countInserts (handleMessage ins [Mask.UpGrabbed p, Mask.DownGrabbed q]
      msg s).2 = 2 ∧
    countSends MASK_COUNTER_PARAM
      (handleMessage ins [Mask.UpGrabbed p, Mask.DownGrabbed q] msg s).2
      = 2 ∧
    countNotify (handleMessage ins [Mask.UpGrabbed p, Mask.DownGrabbed q]
      msg s).2 = 2 := by
  refine ⟨fun a b c d => processRules_append ins a b msg.addr c d,
    ?_, ?_, ?_, ?_⟩ <;>
    simp [handleMessage, hArg, processRules, processRule, hp, hq, h0, h1,
      countInserts, countSends, countNotify]

/-- Witness for C8: both rules match, both inserts succeed. -/
theorem all_rules_applied_witness :
    (handleMessage (fun _ => true)
      [Mask.UpGrabbed (fun _ => true), Mask.DownGrabbed (fun _ => true)]
      ⟨"/m", [OscArg.bool true]⟩ ⟨3, 0⟩).1.data_len = 3 + 2 ∧
    countInserts (handleMessage (fun _ => true)
      [Mask.UpGrabbed (fun _ => true), Mask.DownGrabbed (fun _ => true)]
      ⟨"/m", [OscArg.bool true]⟩ ⟨3, 0⟩).2 = 2 ∧
    countSends MASK_COUNTER_PARAM (handleMessage (fun _ => true)
      [Mask.UpGrabbed (fun _ => true), Mask.DownGrabbed (fun _ => true)]
      ⟨"/m", [OscArg.bool true]⟩ ⟨3, 0⟩).2 = 2 ∧
    countNotify (handleMessage (fun _ => true)
      [Mask.UpGrabbed (fun _ => true), Mask.DownGrabbed (fun _ => true)]
      ⟨"/m", [OscArg.bool true]⟩ ⟨3, 0⟩).2 = 2 := by
  have h := all_rules_applied (fun _ => true) (fun _ => true)
    ⟨"/m", [OscArg.bool true]⟩ ⟨3, 0⟩ (fun _ => true) rfl rfl rfl rfl rfl
  exact ⟨h.2.1, h.2.2.1, h.2.2.2.1, h.2.2.2.2⟩

/-- The rollover check preserves the encoded total exactly. -/
theorem rolloverCheck_total (s : EngineState) :
    total (rolloverCheck s).1 = total s := by
  unfold rolloverCheck total
  split
  · show (s.iteration_amount + s.data_len / 200) * 200 + s.data_len % 200
      = s.iteration_amount * 200 + s.data_len
    omega
  · rfl

/-- Processing one rule never decreases the encoded total. -/
theorem processRule_total_mono (insertOk : Bool) (rule : Mask)
    (addr : String) (s : EngineState) :
    total s ≤ total (processRule insertOk rule addr s).1 := by
  cases rule <;> simp only [processRule] <;> split_ifs <;>
    simp [total]

/-- Processing the whole rule list never decreases the encoded total. -/
theorem processRules_total_mono (ins : Nat → Bool) (params : List Mask)
    (addr : String) : ∀ (s : EngineState) (i : Nat),
    total s ≤ total (processRules ins params addr s i).1 := by
  induction params with
  | nil =>
    intro s i
    simp [processRules]
  | cons a rest ih =>
    intro s i
    calc total s ≤ total (processRule (ins i) a addr s).1 :=
        processRule_total_mono (ins i) a addr s
      _ ≤ total (processRules ins rest addr
            (processRule (ins i) a addr s).1 (i + 1)).1 :=
        ih (processRule (ins i) a addr s).1 (i + 1)
      _ = total (processRules ins (a :: rest) addr s i).1 := by
        simp [processRules]

/-- Dispatching one message never decreases the encoded total. -/
theorem handleMessage_total_mono (ins : Nat → Bool) (params : List Mask)
    (msg : OscMessage) (s : EngineState) :
    total s ≤ total (handleMessage ins params msg s).1 := by
  unfold handleMessage
  split_ifs
  · exact processRules_total_mono ins params msg.addr s 0
  · exact le_refl _
  · exact le_refl _

/-- Dispatching one packet never decreases the encoded total. -/
theorem handlePacket_total_mono (ins : Nat → Bool) (params : List Mask)
    (pkt : OscPacket) (s : EngineState) :
    total s ≤ total (handlePacket ins params pkt s).1 := by
  cases pkt with
  | message msg => exact handleMessage_total_mono ins params msg s
  | bundle => exact le_refl _

/--
C9: `iteration_amount * 200 + data_len` never decreases across any step
of the engine: the rollover check preserves it exactly, no rule
application decrements it, each successfully persisted grab event
increases it by exactly 1, and any non-panicking loop iteration only
keeps it or grows it.
-/
theorem total_monotone :
    (∀ s : EngineState, total (rolloverCheck s).1 = total s) ∧
    (∀ (insertOk : Bool) (rule : Mask) (addr : String) (s : EngineState),
      total s ≤ total (processRule insertOk rule addr s).1) ∧
    (∀ (p : String → Bool) (addr : String) (s : EngineState),
      p addr = true →
      total (processRule true (Mask.UpGrabbed p) addr s).1 = total s + 1 ∧
      total (processRule true (Mask.DownGrabbed p) addr s).1
        = total s + 1) ∧
    (∀ (ins : Nat → Bool) (params : List Mask) (msg : OscMessage)
        (s : EngineState),
      total s ≤ total (handleMessage ins params msg s).1) ∧
    (∀ (ins : Nat → Bool) (params : List Mask) (r : RecvOutcome)
        (s s' : EngineState) (es : List Effect),
      loopStep ins params r s = StepResult.next s' es →
      total s ≤ total s') := by
  refine ⟨rolloverCheck_total, processRule_total_mono, ?_,
    handleMessage_total_mono, ?_⟩
  · intro p addr s h
    constructor <;> simp [processRule, h, total] <;> omega
  · intro ins params r s s' es h
    cases r with
    | recvErr =>
      simp only [loopStep, StepResult.next.injEq] at h
      rw [← h.1, rolloverCheck_total]
    | ok o =>
      cases o with
      | none => exact absurd h (by simp [loopStep])
      | some pkt =>
        simp only [loopStep, StepResult.next.injEq] at h
        calc total s = total (rolloverCheck s).1 :=
            (rolloverCheck_total s).symm
          _ ≤ total (handlePacket ins params pkt (rolloverCheck s).1).1 :=
            handlePacket_total_mono ins params pkt (rolloverCheck s).1
          _ = total s' := by rw [h.1]

/-- Witness for C9: rollover at `⟨205, 0⟩` preserves the total and a
successful matching grab at `⟨3, 1⟩` adds exactly one. -/
theorem total_monotone_witness :
    total (rolloverCheck ⟨205, 0⟩).1 = total ⟨205, 0⟩ ∧
    total (processRule true (Mask.UpGrabbed fun _ => true) "/m" ⟨3, 1⟩).1
      = total ⟨3, 1⟩ + 1 :=
  ⟨total_monotone.1 ⟨205, 0⟩,
   (total_monotone.2.2.1 (fun _ => true) "/m" ⟨3, 1⟩ rfl).1⟩

/-- Send counts to a fixed address add up over trace concatenation. -/
theorem countSends_append (addr : String) (es fs : List Effect) :
    countSends addr (es ++ fs) =
      countSends addr es + countSends addr fs := by
  simp [countSends, List.filter_append]

/-- A single rule application never sends to the iteration address. -/
theorem processRule_no_iteration_send (insertOk : Bool) (rule : Mask)
    (addr : String) (s : EngineState) :
    countSends MASK_ITERATION_PARAM (processRule insertOk rule addr s).2
      = 0 := by
  cases rule <;> simp only [processRule] <;> split_ifs <;>
    simp [countSends, MASK_COUNTER_PARAM, MASK_ITERATION_PARAM]

/-- The classification branch never sends to the iteration address. -/
theorem processRules_no_iteration_send (ins : Nat → Bool)
    (params : List Mask) (addr : String) : ∀ (s : EngineState) (i : Nat),
    countSends MASK_ITERATION_PARAM (processRules ins params addr s i).2
      = 0 := by
  induction params with
  | nil =>
    intro s i
    simp [processRules, countSends]
  | cons a rest ih =>
    intro s i
    show countSends MASK_ITERATION_PARAM
      ((processRule (ins i) a addr s).2 ++
        (processRules ins rest addr (processRule (ins i) a addr s).1
          (i + 1)).2) = 0
    rw [countSends_append, processRule_no_iteration_send, ih]

/--
C10: the avatar-change resync branch runs only when the first argument
is absent or is not boolean `true`: a message to `/avatar/change` whose
first argument is boolean `true` is routed to rule classification (which
never emits the resync's iteration-address send), while a first argument
of boolean `false`, a non-boolean first argument, or no argument at all
triggers resynchronization.
-/
theorem avatar_change_routing :
    (∀ (ins : Nat → Bool) (params : List Mask) (s : EngineState)
        (rest : List OscArg),
      handleMessage ins params ⟨"/avatar/change", OscArg.bool true :: rest⟩
        s = processRules ins params "/avatar/change" s 0) ∧
    (∀ (ins : Nat → Bool) (params : List Mask) (addr : String)
        (s : EngineState) (i : Nat),
      countSends MASK_ITERATION_PARAM (processRules ins params addr s i).2
        = 0) ∧
    (∀ (ins : Nat → Bool) (params : List Mask) (s : EngineState)
        (rest : List OscArg),
      handleMessage ins params ⟨"/avatar/change", OscArg.bool false :: rest⟩
        s = (s, avatarChangeEffects s)) ∧
    (∀ (ins : Nat → Bool) (params : List Mask) (s : EngineState),
      handleMessage ins params ⟨"/avatar/change", []⟩ s =
        (s, avatarChangeEffects s)) ∧
    (∀ (ins : Nat → Bool) (params : List Mask) (s : EngineState) (q : ℚ)
        (rest : List OscArg),
      handleMessage ins params ⟨"/avatar/change", OscArg.float q :: rest⟩
        s = (s, avatarChangeEffects s)) ∧
    (∀ (ins : Nat → Bool) (params : List Mask) (s : EngineState)
        (rest : List OscArg),
      handleMessage ins params ⟨"/avatar/change", OscArg.other :: rest⟩
        s = (s, avatarChangeEffects s)) := by
  refine ⟨?_, fun ins params addr s i =>
    processRules_no_iteration_send ins params addr s i, ?_, ?_, ?_, ?_⟩ <;>
    intros <;> simp [handleMessage, firstArgIsTrue]

end VrcCounter
